import Mathlib

/-!
Shallow embedding of the uacpi-rs binding layer (the safe Rust wrapper over
the vendored uACPI engine) and proofs about its claims.

Machine integers are modelled as Nat; pointers that only carry a numeric
value (handles, addresses) are modelled as Nat as well.  A Rust function
that can abort the process is modelled as an Option- or Except-valued
function whose failure value stands for the abort.
-/

namespace Uacpi

/-- Numeric status codes of the engine.  The values are mirrored from the
hand-written binding variant in src/src/lib.rs of the repository, which
lists the engine status enumeration with explicit discriminants. -/
def UACPI_STATUS_OK : Nat := 0

def UACPI_STATUS_MAPPING_FAILED : Nat := 1

def UACPI_STATUS_OUT_OF_MEMORY : Nat := 2

def UACPI_STATUS_BAD_CHECKSUM : Nat := 3

def UACPI_STATUS_INVALID_SIGNATURE : Nat := 4

def UACPI_STATUS_INVALID_TABLE_LENGTH : Nat := 5

def UACPI_STATUS_NOT_FOUND : Nat := 6

def UACPI_STATUS_INVALID_ARGUMENT : Nat := 7

def UACPI_STATUS_UNIMPLEMENTED : Nat := 8

def UACPI_STATUS_ALREADY_EXISTS : Nat := 9

def UACPI_STATUS_INTERNAL_ERROR : Nat := 10

def UACPI_STATUS_TYPE_MISMATCH : Nat := 11

def UACPI_STATUS_INIT_LEVEL_MISMATCH : Nat := 12

def UACPI_STATUS_NAMESPACE_NODE_DANGLING : Nat := 13

def UACPI_STATUS_NO_HANDLER : Nat := 14

def UACPI_STATUS_NO_RESOURCE_END_TAG : Nat := 15

def UACPI_STATUS_COMPILED_OUT : Nat := 16

def UACPI_STATUS_HARDWARE_TIMEOUT : Nat := 17

def UACPI_STATUS_AML_UNDEFINED_REFERENCE : Nat := 0xEFF0000

def UACPI_STATUS_AML_INVALID_NAMESTRING : Nat := 0xEFF0001

def UACPI_STATUS_AML_OBJECT_ALREADY_EXISTS : Nat := 0xEFF0002

def UACPI_STATUS_AML_INVALID_OPCODE : Nat := 0xEFF0003

def UACPI_STATUS_AML_INCOMPATIBLE_OBJECT_TYPE : Nat := 0xEFF0004

def UACPI_STATUS_AML_BAD_ENCODING : Nat := 0xEFF0005

def UACPI_STATUS_AML_OUT_OF_BOUNDS_INDEX : Nat := 0xEFF0006

def UACPI_STATUS_AML_SYNC_LEVEL_TOO_HIGH : Nat := 0xEFF0007

def UACPI_STATUS_AML_INVALID_RESOURCE : Nat := 0xEFF0008

def UACPI_STATUS_AML_LOOP_TIMEOUT : Nat := 0xEFF0009

/-- The typed status enumeration from src/uacpi/src/types.rs.  Constructor
names follow the Rust variants, including the InvalidTableLenght spelling
of the source. -/
inductive Status where
  | Ok
  | MappingFailed
  | OutOfMemory
  | BadChecksum
  | InvalidSignature
  | InvalidTableLenght
  | NotFound
  | InvalidArgument
  | Unimplemented
  | AlreadyExists
  | InternalError
  | TypeMismatch
  | InitLevelMismatch
  | NamespaceNodeDangling
  | NoHandler
  | NoResourceEndTag
  | CompiledOut
  | HardwareTimeout
  | AmlUndefinedReference
  | AmlInvalidNamestring
  | AmlObjectAlreadyExists
  | AmlInvalidOpcode
  | AmlIncompatibleObjectType
  | AmlBadEncoding
  | AmlOutOfBoundsIndex
  | AmlSyncLevelTooHigh
  | AmlInvalidResource
  | AmlLoopTimeout
  deriving DecidableEq, Repr

/-- The numeric representation of a Status value: each Rust variant carries
the engine constant as its repr(u32) discriminant, so casting a Status back
to a number yields these values. -/
def Status.toNat : Status → Nat
  | .Ok => UACPI_STATUS_OK
  | .MappingFailed => UACPI_STATUS_MAPPING_FAILED
  | .OutOfMemory => UACPI_STATUS_OUT_OF_MEMORY
  | .BadChecksum => UACPI_STATUS_BAD_CHECKSUM
  | .InvalidSignature => UACPI_STATUS_INVALID_SIGNATURE
  | .InvalidTableLenght => UACPI_STATUS_INVALID_TABLE_LENGTH
  | .NotFound => UACPI_STATUS_NOT_FOUND
  | .InvalidArgument => UACPI_STATUS_INVALID_ARGUMENT
  | .Unimplemented => UACPI_STATUS_UNIMPLEMENTED
  | .AlreadyExists => UACPI_STATUS_ALREADY_EXISTS
  | .InternalError => UACPI_STATUS_INTERNAL_ERROR
  | .TypeMismatch => UACPI_STATUS_TYPE_MISMATCH
  | .InitLevelMismatch => UACPI_STATUS_INIT_LEVEL_MISMATCH
  | .NamespaceNodeDangling => UACPI_STATUS_NAMESPACE_NODE_DANGLING
  | .NoHandler => UACPI_STATUS_NO_HANDLER
  | .NoResourceEndTag => UACPI_STATUS_NO_RESOURCE_END_TAG
  | .CompiledOut => UACPI_STATUS_COMPILED_OUT
  | .HardwareTimeout => UACPI_STATUS_HARDWARE_TIMEOUT
  | .AmlUndefinedReference => UACPI_STATUS_AML_UNDEFINED_REFERENCE
  | .AmlInvalidNamestring => UACPI_STATUS_AML_INVALID_NAMESTRING
  | .AmlObjectAlreadyExists => UACPI_STATUS_AML_OBJECT_ALREADY_EXISTS
  | .AmlInvalidOpcode => UACPI_STATUS_AML_INVALID_OPCODE
  | .AmlIncompatibleObjectType => UACPI_STATUS_AML_INCOMPATIBLE_OBJECT_TYPE
  | .AmlBadEncoding => UACPI_STATUS_AML_BAD_ENCODING
  | .AmlOutOfBoundsIndex => UACPI_STATUS_AML_OUT_OF_BOUNDS_INDEX
  | .AmlSyncLevelTooHigh => UACPI_STATUS_AML_SYNC_LEVEL_TOO_HIGH
  | .AmlInvalidResource => UACPI_STATUS_AML_INVALID_RESOURCE
  | .AmlLoopTimeout => UACPI_STATUS_AML_LOOP_TIMEOUT

/-- The From conversion for Status in src/uacpi/src/types.rs: a match over
the engine numeric code.  The catch-all arm of the Rust match aborts, which
is modelled by returning none. -/
def statusFromNat (n : Nat) : Option Status :=
  if n = UACPI_STATUS_OK then some Status.Ok
  else if n = UACPI_STATUS_MAPPING_FAILED then some Status.MappingFailed
  else if n = UACPI_STATUS_OUT_OF_MEMORY then some Status.OutOfMemory
  else if n = UACPI_STATUS_BAD_CHECKSUM then some Status.BadChecksum
  else if n = UACPI_STATUS_INVALID_SIGNATURE then some Status.InvalidSignature
  else if n = UACPI_STATUS_INVALID_TABLE_LENGTH then some Status.InvalidTableLenght
  else if n = UACPI_STATUS_NOT_FOUND then some Status.NotFound
  else if n = UACPI_STATUS_INVALID_ARGUMENT then some Status.InvalidArgument
  else if n = UACPI_STATUS_UNIMPLEMENTED then some Status.Unimplemented
  else if n = UACPI_STATUS_ALREADY_EXISTS then some Status.AlreadyExists
  else if n = UACPI_STATUS_INTERNAL_ERROR then some Status.InternalError
  else if n = UACPI_STATUS_TYPE_MISMATCH then some Status.TypeMismatch
  else if n = UACPI_STATUS_INIT_LEVEL_MISMATCH then some Status.InitLevelMismatch
  else if n = UACPI_STATUS_NAMESPACE_NODE_DANGLING then some Status.NamespaceNodeDangling
  else if n = UACPI_STATUS_NO_HANDLER then some Status.NoHandler
  else if n = UACPI_STATUS_NO_RESOURCE_END_TAG then some Status.NoResourceEndTag
  else if n = UACPI_STATUS_COMPILED_OUT then some Status.CompiledOut
  else if n = UACPI_STATUS_HARDWARE_TIMEOUT then some Status.HardwareTimeout
  else if n = UACPI_STATUS_AML_UNDEFINED_REFERENCE then some Status.AmlUndefinedReference
  else if n = UACPI_STATUS_AML_INVALID_NAMESTRING then some Status.AmlInvalidNamestring
  else if n = UACPI_STATUS_AML_OBJECT_ALREADY_EXISTS then some Status.AmlObjectAlreadyExists
  else if n = UACPI_STATUS_AML_INVALID_OPCODE then some Status.AmlInvalidOpcode
  else if n = UACPI_STATUS_AML_INCOMPATIBLE_OBJECT_TYPE then some Status.AmlIncompatibleObjectType
  else if n = UACPI_STATUS_AML_BAD_ENCODING then some Status.AmlBadEncoding
  else if n = UACPI_STATUS_AML_OUT_OF_BOUNDS_INDEX then some Status.AmlOutOfBoundsIndex
  else if n = UACPI_STATUS_AML_SYNC_LEVEL_TOO_HIGH then some Status.AmlSyncLevelTooHigh
  else if n = UACPI_STATUS_AML_INVALID_RESOURCE then some Status.AmlInvalidResource
  else if n = UACPI_STATUS_AML_LOOP_TIMEOUT then some Status.AmlLoopTimeout
  else none

/-- Helper lemma peeling one arm of the status match: if the mapped variant
of the tested code has that code as its numeric representation, and the
rest of the chain is faithful, then the whole ite step is faithful. -/
theorem statusFromNat_step (c : Nat) (x : Status) {n : Nat} {s : Status}
    {rest : Option Status}
    (hx : Status.toNat x = c)
    (hrest : rest = some s → n = s.toNat) :
    (if n = c then some x else rest) = some s → n = s.toNat := by
  intro h
  by_cases hc : n = c
  · rw [if_pos hc] at h
    injection h with h2
    subst h2
    exact hc.trans hx.symm
  · rw [if_neg hc] at h
    exact hrest h

/-- Claim C1: the status code mapping is a round-trip identity on every
enumerated numeric value, only the numeric value UACPI_STATUS_OK is mapped
to Status.Ok, and every numeric value outside the enumerated set makes the
conversion abort (modelled by none). -/
theorem c1_status_roundtrip :
    (∀ s : Status, statusFromNat s.toNat = some s) ∧
    (∀ (n : Nat) (s : Status), statusFromNat n = some s → n = s.toNat) ∧
    (∀ n : Nat, statusFromNat n = some Status.Ok → n = UACPI_STATUS_OK) ∧
    (∀ n : Nat, (∀ s : Status, n ≠ s.toNat) → statusFromNat n = none) := by
  have hback : ∀ (n : Nat) (s : Status), statusFromNat n = some s → n = s.toNat := by
    intro n s
    unfold statusFromNat
    apply statusFromNat_step UACPI_STATUS_OK Status.Ok rfl
    apply statusFromNat_step UACPI_STATUS_MAPPING_FAILED Status.MappingFailed rfl
    apply statusFromNat_step UACPI_STATUS_OUT_OF_MEMORY Status.OutOfMemory rfl
    apply statusFromNat_step UACPI_STATUS_BAD_CHECKSUM Status.BadChecksum rfl
    apply statusFromNat_step UACPI_STATUS_INVALID_SIGNATURE Status.InvalidSignature rfl
    apply statusFromNat_step UACPI_STATUS_INVALID_TABLE_LENGTH Status.InvalidTableLenght rfl
    apply statusFromNat_step UACPI_STATUS_NOT_FOUND Status.NotFound rfl
    apply statusFromNat_step UACPI_STATUS_INVALID_ARGUMENT Status.InvalidArgument rfl
    apply statusFromNat_step UACPI_STATUS_UNIMPLEMENTED Status.Unimplemented rfl
    apply statusFromNat_step UACPI_STATUS_ALREADY_EXISTS Status.AlreadyExists rfl
    apply statusFromNat_step UACPI_STATUS_INTERNAL_ERROR Status.InternalError rfl
    apply statusFromNat_step UACPI_STATUS_TYPE_MISMATCH Status.TypeMismatch rfl
    apply statusFromNat_step UACPI_STATUS_INIT_LEVEL_MISMATCH Status.InitLevelMismatch rfl
    apply statusFromNat_step UACPI_STATUS_NAMESPACE_NODE_DANGLING Status.NamespaceNodeDangling rfl
    apply statusFromNat_step UACPI_STATUS_NO_HANDLER Status.NoHandler rfl
    apply statusFromNat_step UACPI_STATUS_NO_RESOURCE_END_TAG Status.NoResourceEndTag rfl
    apply statusFromNat_step UACPI_STATUS_COMPILED_OUT Status.CompiledOut rfl
    apply statusFromNat_step UACPI_STATUS_HARDWARE_TIMEOUT Status.HardwareTimeout rfl
    apply statusFromNat_step UACPI_STATUS_AML_UNDEFINED_REFERENCE Status.AmlUndefinedReference rfl
    apply statusFromNat_step UACPI_STATUS_AML_INVALID_NAMESTRING Status.AmlInvalidNamestring rfl
    apply statusFromNat_step UACPI_STATUS_AML_OBJECT_ALREADY_EXISTS Status.AmlObjectAlreadyExists rfl
    apply statusFromNat_step UACPI_STATUS_AML_INVALID_OPCODE Status.AmlInvalidOpcode rfl
    apply statusFromNat_step UACPI_STATUS_AML_INCOMPATIBLE_OBJECT_TYPE Status.AmlIncompatibleObjectType rfl
    apply statusFromNat_step UACPI_STATUS_AML_BAD_ENCODING Status.AmlBadEncoding rfl
    apply statusFromNat_step UACPI_STATUS_AML_OUT_OF_BOUNDS_INDEX Status.AmlOutOfBoundsIndex rfl
    apply statusFromNat_step UACPI_STATUS_AML_SYNC_LEVEL_TOO_HIGH Status.AmlSyncLevelTooHigh rfl
    apply statusFromNat_step UACPI_STATUS_AML_INVALID_RESOURCE Status.AmlInvalidResource rfl
    apply statusFromNat_step UACPI_STATUS_AML_LOOP_TIMEOUT Status.AmlLoopTimeout rfl
    intro h
    exact Option.noConfusion h
  refine ⟨?_, hback, ?_, ?_⟩
  · intro s
    cases s <;> rfl
  · intro n h
    exact hback n Status.Ok h
  · intro n hn
    cases hfn : statusFromNat n with
    | none => rfl
    | some s => exact absurd (hback n s hfn) (hn s)

/-- Claim C1 witness: concrete instances of the round-trip and of the
abort on an unmapped numeric value. -/
theorem c1_status_roundtrip_witness :
    statusFromNat (Status.toNat Status.BadChecksum) = some Status.BadChecksum ∧
    (3 : Nat) = Status.toNat Status.BadChecksum ∧
    (0 : Nat) = UACPI_STATUS_OK ∧
    statusFromNat 18 = none :=
  ⟨c1_status_roundtrip.1 Status.BadChecksum,
   c1_status_roundtrip.2.1 3 Status.BadChecksum (by decide),
   c1_status_roundtrip.2.2.1 0 (by decide),
   c1_status_roundtrip.2.2.2 18 (by intro s; cases s <;> decide)⟩

/-- The process-wide capability registry of src/uacpi/src/kernel_api.rs,
modelled by explicit state passing: the static KERNEL_API cell is an Option
value threaded through the setter and getter.  The stored Arc reference is
opaque to the registry, hence the type parameter. -/
def set_kernel_api {α : Type} (api : α) (_st : Option α) : Option α :=
  some api

/-- The registry getter of src/uacpi/src/kernel_api.rs: clones the stored
reference, aborting with the expect message when no kernel api has been
set.  The abort is modelled by the Except error value. -/
def get_kernel_api {α : Type} (st : Option α) : Except String α :=
  match st with
  | some api => Except.ok api
  | none => Except.error "No kernel api set"

/-- Claim C2 counterexample: a second call of set_kernel_api does not fail
fast; it returns a normal registry state holding the second implementation,
and the getter afterwards serves that second implementation. -/
theorem c2_registry_counterexample :
    set_kernel_api (1 : Nat) Option.none = some 1 ∧
    set_kernel_api (2 : Nat) (set_kernel_api 1 Option.none) = some 2 ∧
    get_kernel_api (set_kernel_api (2 : Nat) (set_kernel_api 1 Option.none)) =
      Except.ok 2 :=
  ⟨rfl, rfl, rfl⟩

/-- Claim C2 (amended): calling the getter before any set aborts with the
expect message, and a second call of set_kernel_api silently replaces the
stored capability implementation with the new one instead of failing. -/
theorem c2_registry_amended :
    (∀ α : Type, get_kernel_api (Option.none : Option α) =
      Except.error "No kernel api set") ∧
    (∀ (α : Type) (api : α) (st : Option α), set_kernel_api api st = some api) :=
  ⟨fun _ => rfl, fun _ _ _ => rfl⟩

/-- The opaque kernel handle newtype of src/uacpi/src/types.rs, wrapping the
numeric value of the uacpi_handle pointer. -/
structure Handle where
  val : Nat
  deriving DecidableEq, Repr

/-- Handle constructor: the assertion rejecting the value 0 is modelled by
returning none. -/
def Handle.new (handle : Nat) : Option Handle :=
  if handle = 0 then none else some ⟨handle⟩

/-- The invalid kernel handle. -/
def Handle.invalid : Handle := ⟨0⟩

/-- The numeric value of a handle. -/
def Handle.as_u64 (h : Handle) : Nat := h.val

/-- Claim C7: Handle.new 0 aborts, 0 is the value of the invalid handle and
is never produced by Handle.new, and every nonzero u64 value round-trips
through Handle.new and as_u64 unchanged. -/
theorem c7_handle_roundtrip :
    Handle.new 0 = none ∧
    Handle.invalid.as_u64 = 0 ∧
    (∀ v : Nat, v ≠ 0 → v < 2 ^ 64 →
      (Handle.new v).map Handle.as_u64 = some v) ∧
    (∀ (v : Nat) (h : Handle), Handle.new v = some h → h ≠ Handle.invalid) := by
  refine ⟨rfl, rfl, ?_, ?_⟩
  · intro v hv _
    simp [Handle.new, hv, Handle.as_u64]
  · intro v h hvh hceq
    unfold Handle.new at hvh
    by_cases h0 : v = 0
    · rw [if_pos h0] at hvh
      exact Option.noConfusion hvh
    · rw [if_neg h0] at hvh
      injection hvh with h2
      apply h0
      have hval : Handle.val ⟨v⟩ = Handle.val Handle.invalid := by rw [h2, hceq]
      simpa [Handle.invalid] using hval

/-- Claim C7 witness: the nonzero value 7 round-trips and mints a handle
different from the invalid handle. -/
theorem c7_handle_roundtrip_witness :
    (Handle.new 7).map Handle.as_u64 = some 7 ∧
    (⟨7⟩ : Handle) ≠ Handle.invalid :=
  ⟨c7_handle_roundtrip.2.2.1 7 (by decide) (by norm_num),
   c7_handle_roundtrip.2.2.2 7 ⟨7⟩ rfl⟩

/-- Byte-wise model of the pointer primitive copy_nonoverlapping writing
len bytes of the source to the start of the destination buffer. -/
def copy_nonoverlapping (src dst : List Nat) (len : Nat) : List Nat :=
  src.take len ++ dst.drop len

/-- The overflow-checked snprintf shim of src/uacpi/src/libc_impl.rs.  The
printf rendering done by the external printf_compat crate is taken as the
rendered parameter together with its return count; the abort on overflow is
modelled by none. -/
def snprintf_chk (s : List Nat) (max_len : Nat) (_flags : Int) (len : Nat)
    (rendered : List Nat) (written : Int) : Option (Int × List Nat) :=
  if max_len < len then none
  else some (written, copy_nonoverlapping rendered s max_len)

/-- The overflow-checked memcpy shim of src/uacpi/src/libc_impl.rs; the
abort on overflow is modelled by none. -/
def memcpy_chk (dst src : List Nat) (len dest_len : Nat) : Option (List Nat) :=
  if dest_len < len then none
  else some (copy_nonoverlapping src dst len)

/-- Claim C8: both overflow-checked copy shims abort, producing no modified
destination buffer, whenever the destination length bound is smaller than
the requested length. -/
theorem c8_checked_copies_abort :
    (∀ (s : List Nat) (max_len : Nat) (flags : Int) (len : Nat)
      (rendered : List Nat) (written : Int), max_len < len →
      snprintf_chk s max_len flags len rendered written = none) ∧
    (∀ (dst src : List Nat) (len dest_len : Nat), dest_len < len →
      memcpy_chk dst src len dest_len = none) := by
  constructor
  · intro s max_len flags len rendered written h
    simp [snprintf_chk, h]
  · intro dst src len dest_len h
    simp [memcpy_chk, h]

/-- Claim C8 witness: concrete overflowing length pairs make both shims
abort. -/
theorem c8_checked_copies_abort_witness :
    snprintf_chk [] 1 0 2 [] 0 = none ∧ memcpy_chk [] [] 3 2 = none :=
  ⟨c8_checked_copies_abort.1 [] 1 0 2 [] 0 (by decide),
   c8_checked_copies_abort.2 [] [] 3 2 (by decide)⟩

/-- The strnlen shim of src/uacpi/src/libc_impl.rs: memory is modelled as a
byte valuation on addresses; the while loop, which advances the cursor and
the counter until a zero byte or the cap is reached, becomes structural
recursion on the remaining allowance. -/
def strnlen (mem : Nat → Nat) (s : Nat) : Nat → Nat
  | 0 => 0
  | maxLen + 1 => if mem s = 0 then 0 else strnlen mem (s + 1) maxLen + 1

/-- Claim C10: on a nul-terminated byte string whose first zero byte sits at
offset i, strnlen returns the minimum of i and the cap max_len. -/
theorem c10_strnlen_min :
    ∀ (mem : Nat → Nat) (maxLen s i : Nat),
      mem (s + i) = 0 → (∀ j, j < i → mem (s + j) ≠ 0) →
      strnlen mem s maxLen = min i maxLen := by
  intro mem maxLen
  induction maxLen with
  | zero =>
    intro s i _ _
    simp [strnlen]
  | succ n ih =>
    intro s i h1 h2
    by_cases hs : mem s = 0
    · have hi : i = 0 := by
        by_contra hne
        exact h2 0 (Nat.pos_of_ne_zero hne) (by simpa using hs)
      subst hi
      simp [strnlen, hs]
    · cases i with
      | zero =>
        exact absurd (by simpa using h1) hs
      | succ k =>
        have h1k : mem (s + 1 + k) = 0 := by
          have : s + 1 + k = s + (k + 1) := by omega
          rw [this]
          exact h1
        have h2k : ∀ j, j < k → mem (s + 1 + j) ≠ 0 := by
          intro j hj
          have : s + 1 + j = s + (j + 1) := by omega
          rw [this]
          exact h2 (j + 1) (by omega)
        have := ih (s + 1) k h1k h2k
        simp only [strnlen, hs, if_false, this]
        omega

/-- Concrete byte valuation whose first zero byte sits at address 3. -/
def testMem : Nat → Nat := fun a => if a = 3 then 0 else 1

/-- Claim C10 witness: with the first zero byte at offset 3 and cap 5, the
shim returns 3. -/
theorem c10_strnlen_min_witness :
    strnlen testMem 0 5 = min 3 5 :=
  c10_strnlen_min testMem 5 0 3 (by decide) (by decide)

/-- The reduced-hardware variant of set_waking_vector in
src/uacpi/src/sleep.rs.  The engine entry point that the full-hardware
variant would call is passed as a parameter to make visible that the
reduced variant never consults it. -/
def set_waking_vector_reduced (_engine : Nat → Nat → Status)
    (_addr32 _addr64 : Nat) : Except Status Unit :=
  Except.error Status.CompiledOut

/-- Claim C9: under the reduced-hardware configuration set_waking_vector
fails with CompiledOut for every pair of addresses, and its result is
independent of the engine waking-vector entry point, which is never
invoked. -/
theorem c9_waking_vector_compiled_out :
    ∀ (engine1 engine2 : Nat → Nat → Status) (addr32 addr64 : Nat),
      set_waking_vector_reduced engine1 addr32 addr64 =
        Except.error Status.CompiledOut ∧
      set_waking_vector_reduced engine1 addr32 addr64 =
        set_waking_vector_reduced engine2 addr32 addr64 :=
  fun _ _ _ _ => ⟨rfl, rfl⟩

/-- Modelled from the spec: the numeric tag of the breakpoint arm of the
engine firmware-request union.  The generated binding constants are not
part of the repository sources; only the distinctness of the two tags
matters to the claims. -/
def UACPI_FIRMWARE_REQUEST_TYPE_BREAKPOINT : Nat := 0

/-- Modelled from the spec: the numeric tag of the fatal arm of the engine
firmware-request union. -/
def UACPI_FIRMWARE_REQUEST_TYPE_FATAL : Nat := 1

/-- Raw firmware request as handed over by the engine: a tag together with
the data of both union arms; the inactive arm is simply never read. -/
structure RawFirmwareRequest where
  type_ : Nat
  breakpoint_ctx : Nat
  fatal_typ : Nat
  fatal_code : Nat
  fatal_arg : Nat
  deriving DecidableEq, Repr

/-- The typed firmware request of src/uacpi/src/types.rs. -/
inductive FirmwareRequest where
  | Breakpoint (context : Nat)
  | Fatal (typ : Nat) (code : Nat) (arg : Nat)
  deriving DecidableEq, Repr

/-- The From conversion for FirmwareRequest in src/uacpi/src/types.rs: a
match on the union tag whose catch-all arm aborts, modelled by none. -/
def firmwareRequestFromRaw (value : RawFirmwareRequest) :
    Option FirmwareRequest :=
  if value.type_ = UACPI_FIRMWARE_REQUEST_TYPE_BREAKPOINT then
    some (FirmwareRequest.Breakpoint value.breakpoint_ctx)
  else if value.type_ = UACPI_FIRMWARE_REQUEST_TYPE_FATAL then
    some (FirmwareRequest.Fatal value.fatal_typ value.fatal_code value.fatal_arg)
  else none

/-- Claim C4: a breakpoint-tagged request decodes to Breakpoint with the
context of the breakpoint arm, a fatal-tagged request decodes to Fatal with
the type, code and argument of the fatal arm, and any other tag makes the
conversion abort. -/
theorem c4_firmware_request_decode :
    ∀ r : RawFirmwareRequest,
      (r.type_ = UACPI_FIRMWARE_REQUEST_TYPE_BREAKPOINT →
        firmwareRequestFromRaw r =
          some (FirmwareRequest.Breakpoint r.breakpoint_ctx)) ∧
      (r.type_ = UACPI_FIRMWARE_REQUEST_TYPE_FATAL →
        firmwareRequestFromRaw r =
          some (FirmwareRequest.Fatal r.fatal_typ r.fatal_code r.fatal_arg)) ∧
      (r.type_ ≠ UACPI_FIRMWARE_REQUEST_TYPE_BREAKPOINT →
        r.type_ ≠ UACPI_FIRMWARE_REQUEST_TYPE_FATAL →
        firmwareRequestFromRaw r = none) := by
  intro r
  refine ⟨?_, ?_, ?_⟩
  · intro h
    simp [firmwareRequestFromRaw, h, UACPI_FIRMWARE_REQUEST_TYPE_BREAKPOINT]
  · intro h
    simp [firmwareRequestFromRaw, h, UACPI_FIRMWARE_REQUEST_TYPE_BREAKPOINT,
      UACPI_FIRMWARE_REQUEST_TYPE_FATAL]
  · intro h1 h2
    simp [firmwareRequestFromRaw, h1, h2]

/-- Claim C4 witness: a concrete breakpoint request, a concrete fatal
request and a concrete unknown tag decode as the claim states. -/
theorem c4_firmware_request_decode_witness :
    firmwareRequestFromRaw ⟨0, 11, 0, 0, 0⟩ =
      some (FirmwareRequest.Breakpoint 11) ∧
    firmwareRequestFromRaw ⟨1, 0, 2, 3, 4⟩ =
      some (FirmwareRequest.Fatal 2 3 4) ∧
    firmwareRequestFromRaw ⟨5, 0, 0, 0, 0⟩ = none :=
  ⟨(c4_firmware_request_decode ⟨0, 11, 0, 0, 0⟩).1 rfl,
   (c4_firmware_request_decode ⟨1, 0, 2, 3, 4⟩).2.1 rfl,
   (c4_firmware_request_decode ⟨5, 0, 0, 0, 0⟩).2.2 (by decide) (by decide)⟩

/-- Modelled from the spec: the engine numeric object type tag for the
integer object type.  The generated binding constants are not part of the
repository sources; only distinctness of the tags matters to the claims. -/
def UACPI_OBJECT_INTEGER : Nat := 1

/-- Modelled from the spec: the engine numeric object type tag for the
string object type. -/
def UACPI_OBJECT_STRING : Nat := 2

/-- Modelled from the spec: the engine numeric object type tag for the
buffer object type. -/
def UACPI_OBJECT_BUFFER : Nat := 3

/-- Modelled from the spec: the engine numeric object type tag for the
package object type. -/
def UACPI_OBJECT_PACKAGE : Nat := 4

/-- The engine uacpi_object pointee: a numeric type tag together with the
data of the union arms that the accessors of src/uacpi/src/types.rs read
(the integer value, the byte data of the buffer or string arm, and the
children of the package arm). -/
inductive UacpiObject where
  | mk (ty : Nat) (intVal : Nat) (bytes : List Nat) (pkg : List UacpiObject)

/-- The type tag of the pointee. -/
def UacpiObject.type_ : UacpiObject → Nat
  | .mk t _ _ _ => t

/-- The integer union arm of the pointee. -/
def UacpiObject.integer : UacpiObject → Nat
  | .mk _ v _ _ => v

/-- The byte data and size of the buffer union arm of the pointee. -/
def UacpiObject.byte_data : UacpiObject → List Nat
  | .mk _ _ b _ => b

/-- The child objects of the package union arm of the pointee. -/
def UacpiObject.package : UacpiObject → List UacpiObject
  | .mk _ _ _ p => p

/-- Modelled from the spec: the engine object constructor uacpi_create_object
is external to the repository; it allocates a fresh object of the requested
type with zeroed payload, or fails on allocation failure, selected here by
the allocOk flag. -/
def uacpi_create_object (allocOk : Bool) (t : Nat) : Option UacpiObject :=
  if allocOk then some (UacpiObject.mk t 0 [] []) else none

/-- Object.new_int of src/uacpi/src/types.rs: create an integer object and
store the value into the integer union arm. -/
def Object.new_int (allocOk : Bool) (value : Nat) : Option UacpiObject :=
  match uacpi_create_object allocOk UACPI_OBJECT_INTEGER with
  | none => none
  | some o => some (UacpiObject.mk o.type_ value o.byte_data o.package)

/-- Object.get_int of src/uacpi/src/types.rs: read the integer arm only
when the type tag matches. -/
def Object.get_int (o : UacpiObject) : Option Nat :=
  if o.type_ ≠ UACPI_OBJECT_INTEGER then none else some o.integer

/-- Object.get_buffer of src/uacpi/src/types.rs: read the buffer bytes only
when the type tag matches. -/
def Object.get_buffer (o : UacpiObject) : Option (List Nat) :=
  if o.type_ ≠ UACPI_OBJECT_BUFFER then none else some o.byte_data

/-- Model of CStr.from_bytes_with_nul: succeeds exactly when the byte list
is nonempty, ends in a zero byte and has no interior zero byte. -/
def cstr_from_bytes_with_nul (bytes : List Nat) : Option (List Nat) :=
  match bytes.getLast? with
  | some 0 => if bytes.dropLast.contains 0 then none else some bytes
  | _ => none

/-- Object.get_string of src/uacpi/src/types.rs: on a matching tag the byte
data is converted with CStr.from_bytes_with_nul and the result is
unwrapped; the unwrap abort is modelled by the outer none, a normal return
by the outer some. -/
def Object.get_string (o : UacpiObject) : Option (Option (List Nat)) :=
  if o.type_ ≠ UACPI_OBJECT_STRING then some none
  else
    match cstr_from_bytes_with_nul o.byte_data with
    | some cs => some (some cs)
    | none => none

/-- Object.get_package of src/uacpi/src/types.rs: return the child objects
only when the type tag matches. -/
def Object.get_package (o : UacpiObject) : Option (List UacpiObject) :=
  if o.type_ ≠ UACPI_OBJECT_PACKAGE then none else some o.package

/-- Claim C5: get_int returns none on every non-integer tag, get_buffer
returns none on every non-buffer tag, and new_int followed by get_int
round-trips every value when allocation succeeds. -/
theorem c5_object_accessors :
    (∀ o : UacpiObject, o.type_ ≠ UACPI_OBJECT_INTEGER →
      Object.get_int o = none) ∧
    (∀ o : UacpiObject, o.type_ ≠ UACPI_OBJECT_BUFFER →
      Object.get_buffer o = none) ∧
    (∀ (v : Nat) (o : UacpiObject), Object.new_int true v = some o →
      Object.get_int o = some v) := by
  refine ⟨?_, ?_, ?_⟩
  · intro o h
    simp [Object.get_int, h]
  · intro o h
    simp [Object.get_buffer, h]
  · intro v o h
    simp [Object.new_int, uacpi_create_object] at h
    subst h
    simp [Object.get_int, UacpiObject.type_, UacpiObject.integer,
      UACPI_OBJECT_INTEGER]

/-- Claim C5 witness: get_int on a buffer-typed object and get_buffer on an
integer-typed object return none, and new_int 42 round-trips. -/
theorem c5_object_accessors_witness :
    Object.get_int (UacpiObject.mk UACPI_OBJECT_BUFFER 0 [1, 2] []) = none ∧
    Object.get_buffer (UacpiObject.mk UACPI_OBJECT_INTEGER 7 [] []) = none ∧
    Object.get_int (UacpiObject.mk UACPI_OBJECT_INTEGER 42 [] []) = some 42 :=
  ⟨c5_object_accessors.1 (UacpiObject.mk UACPI_OBJECT_BUFFER 0 [1, 2] [])
      (by decide),
   c5_object_accessors.2.1 (UacpiObject.mk UACPI_OBJECT_INTEGER 7 [] [])
      (by decide),
   c5_object_accessors.2.2 42 (UacpiObject.mk UACPI_OBJECT_INTEGER 42 [] []) rfl⟩

/-- Claim C6 counterexample: get_string on a string-typed object whose byte
buffer has no terminating zero byte aborts in the unwrap (the outer none)
instead of returning. -/
theorem c6_get_string_counterexample :
    Object.get_string (UacpiObject.mk UACPI_OBJECT_STRING 0 [65] []) = none := by
  rfl

/-- Claim C6 (amended): get_int, get_buffer and get_package are total and
return an absence value on tag mismatch, but get_string aborts exactly when
the object is string-typed and its byte buffer is not a valid
nul-terminated byte string; on every other input it returns without
aborting. -/
theorem c6_get_string_amended :
    ∀ o : UacpiObject,
      (Object.get_string o = none ↔
        o.type_ = UACPI_OBJECT_STRING ∧
          cstr_from_bytes_with_nul o.byte_data = none) ∧
      (o.type_ ≠ UACPI_OBJECT_STRING → Object.get_string o = some none) ∧
      (∀ cs, o.type_ = UACPI_OBJECT_STRING →
        cstr_from_bytes_with_nul o.byte_data = some cs →
        Object.get_string o = some (some cs)) := by
  intro o
  refine ⟨?_, ?_, ?_⟩
  · constructor
    · intro h
      by_cases ht : o.type_ = UACPI_OBJECT_STRING
      · refine ⟨ht, ?_⟩
        cases hc : cstr_from_bytes_with_nul o.byte_data with
        | none => rfl
        | some cs =>
          rw [Object.get_string, if_neg (not_not_intro ht), hc] at h
          exact Option.noConfusion h
      · rw [Object.get_string, if_pos ht] at h
        exact Option.noConfusion h
    · rintro ⟨ht, hc⟩
      rw [Object.get_string, if_neg (not_not_intro ht), hc]
  · intro ht
    rw [Object.get_string, if_pos ht]
  · intro cs ht hc
    rw [Object.get_string, if_neg (not_not_intro ht), hc]

/-- Claim C6 witness: a valid nul-terminated string object returns its
bytes, and a non-string object returns the absence value, both without
aborting. -/
theorem c6_get_string_amended_witness :
    Object.get_string (UacpiObject.mk UACPI_OBJECT_STRING 0 [72, 0] []) =
      some (some [72, 0]) ∧
    Object.get_string (UacpiObject.mk UACPI_OBJECT_INTEGER 5 [] []) =
      some none :=
  ⟨(c6_get_string_amended (UacpiObject.mk UACPI_OBJECT_STRING 0 [72, 0] [])).2.2
      [72, 0] rfl (by decide),
   (c6_get_string_amended (UacpiObject.mk UACPI_OBJECT_INTEGER 5 [] [])).2.1
      (by decide)⟩

/-- The PCI configuration space address of src/uacpi/src/types.rs,
decomposed into segment, bus, device and function. -/
structure PCIAddress where
  segment : Nat
  bus : Nat
  device : Nat
  function : Nat
  deriving DecidableEq, Repr

/-- The closure the install trampoline builds from the raw callback token
and its context handle before handing it to the capability. -/
inductive Closure where
  | call (handlerTok : Nat) (ctx : Nat)
  deriving DecidableEq, Repr

/-- The slice of the KernelApi capability trait of
src/uacpi/src/kernel_api.rs used by the value-returning trampolines of
claim C3; each field models the corresponding trait method, with Except
carrying the Result of the Rust signature. -/
structure KernelApi where
  raw_memory_read : Nat → Nat → Except Status Nat
  raw_io_read : Nat → Nat → Except Status Nat
  pci_read : PCIAddress → Nat → Nat → Except Status Nat
  io_map : Nat → Nat → Except Status Nat
  io_read : Nat → Nat → Nat → Except Status Nat
  install_interrupt_handler : Nat → Closure → Except Status Nat

/-- Trampoline uacpi_kernel_raw_memory_read: fetch the registered
capability (the registry abort is the outer error), call it, and on success
write the value into the output slot; on failure return the status and
leave the output slot unchanged. -/
def uacpi_kernel_raw_memory_read (st : Option KernelApi)
    (phys byte_width out : Nat) : Except String (Status × Nat) :=
  match get_kernel_api st with
  | Except.error e => Except.error e
  | Except.ok api =>
    match api.raw_memory_read phys byte_width with
    | Except.ok ret => Except.ok (Status.Ok, ret)
    | Except.error status => Except.ok (status, out)

/-- Trampoline uacpi_kernel_raw_io_read, same output discipline. -/
def uacpi_kernel_raw_io_read (st : Option KernelApi)
    (addr byte_width out : Nat) : Except String (Status × Nat) :=
  match get_kernel_api st with
  | Except.error e => Except.error e
  | Except.ok api =>
    match api.raw_io_read addr byte_width with
    | Except.ok ret => Except.ok (Status.Ok, ret)
    | Except.error status => Except.ok (status, out)

/-- Trampoline uacpi_kernel_pci_read, same output discipline. -/
def uacpi_kernel_pci_read (st : Option KernelApi) (address : PCIAddress)
    (offset byte_width out : Nat) : Except String (Status × Nat) :=
  match get_kernel_api st with
  | Except.error e => Except.error e
  | Except.ok api =>
    match api.pci_read address offset byte_width with
    | Except.ok ret => Except.ok (Status.Ok, ret)
    | Except.error status => Except.ok (status, out)

/-- Trampoline uacpi_kernel_io_map: on success the minted handle is written
into the output slot. -/
def uacpi_kernel_io_map (st : Option KernelApi)
    (base len out_handle : Nat) : Except String (Status × Nat) :=
  match get_kernel_api st with
  | Except.error e => Except.error e
  | Except.ok api =>
    match api.io_map base len with
    | Except.ok ret => Except.ok (Status.Ok, ret)
    | Except.error status => Except.ok (status, out_handle)

/-- Trampoline uacpi_kernel_io_read, same output discipline. -/
def uacpi_kernel_io_read (st : Option KernelApi)
    (handle offset byte_width out : Nat) : Except String (Status × Nat) :=
  match get_kernel_api st with
  | Except.error e => Except.error e
  | Except.ok api =>
    match api.io_read handle offset byte_width with
    | Except.ok ret => Except.ok (Status.Ok, ret)
    | Except.error status => Except.ok (status, out)

/-- Trampoline uacpi_kernel_install_interrupt_handler: the callback and its
context are packed into a closure, and on success the handler handle is
written into the output slot. -/
def uacpi_kernel_install_interrupt_handler (st : Option KernelApi)
    (irq handlerTok ctx out_irq_handle : Nat) : Except String (Status × Nat) :=
  match get_kernel_api st with
  | Except.error e => Except.error e
  | Except.ok api =>
    match api.install_interrupt_handler irq (Closure.call handlerTok ctx) with
    | Except.ok val => Except.ok (Status.Ok, val)
    | Except.error status => Except.ok (status, out_irq_handle)

/-- Claim C3: each value-returning trampoline writes the capability result
through the output slot and returns the success status when the capability
call succeeds, and returns the error status with the output slot unchanged
when the capability call fails. -/
theorem c3_trampolines_output_discipline :
    ∀ (api : KernelApi) (addr : PCIAddress) (a b c out v : Nat) (s : Status),
      (api.raw_memory_read a b = Except.ok v →
        uacpi_kernel_raw_memory_read (some api) a b out =
          Except.ok (Status.Ok, v)) ∧
      (api.raw_memory_read a b = Except.error s →
        uacpi_kernel_raw_memory_read (some api) a b out =
          Except.ok (s, out)) ∧
      (api.raw_io_read a b = Except.ok v →
        uacpi_kernel_raw_io_read (some api) a b out =
          Except.ok (Status.Ok, v)) ∧
      (api.raw_io_read a b = Except.error s →
        uacpi_kernel_raw_io_read (some api) a b out = Except.ok (s, out)) ∧
      (api.pci_read addr a b = Except.ok v →
        uacpi_kernel_pci_read (some api) addr a b out =
          Except.ok (Status.Ok, v)) ∧
      (api.pci_read addr a b = Except.error s →
        uacpi_kernel_pci_read (some api) addr a b out =
          Except.ok (s, out)) ∧
      (api.io_map a b = Except.ok v →
        uacpi_kernel_io_map (some api) a b out = Except.ok (Status.Ok, v)) ∧
      (api.io_map a b = Except.error s →
        uacpi_kernel_io_map (some api) a b out = Except.ok (s, out)) ∧
      (api.io_read a b c = Except.ok v →
        uacpi_kernel_io_read (some api) a b c out =
          Except.ok (Status.Ok, v)) ∧
      (api.io_read a b c = Except.error s →
        uacpi_kernel_io_read (some api) a b c out = Except.ok (s, out)) ∧
      (api.install_interrupt_handler a (Closure.call b c) = Except.ok v →
        uacpi_kernel_install_interrupt_handler (some api) a b c out =
          Except.ok (Status.Ok, v)) ∧
      (api.install_interrupt_handler a (Closure.call b c) = Except.error s →
        uacpi_kernel_install_interrupt_handler (some api) a b c out =
          Except.ok (s, out)) := by
  intro api addr a b c out v s
  refine ⟨?_, ?_, ?_, ?_, ?_, ?_, ?_, ?_, ?_, ?_, ?_, ?_⟩ <;>
    intro h <;>
    simp [uacpi_kernel_raw_memory_read, uacpi_kernel_raw_io_read,
      uacpi_kernel_pci_read, uacpi_kernel_io_map, uacpi_kernel_io_read,
      uacpi_kernel_install_interrupt_handler, get_kernel_api, h]

/-- Concrete capability implementation used to witness claim C3. -/
def testApi : KernelApi where
  raw_memory_read := fun p w => Except.ok (p + w)
  raw_io_read := fun _ _ => Except.error Status.NotFound
  pci_read := fun _ o w => Except.ok (o * 10 + w)
  io_map := fun b l => Except.ok (b + l)
  io_read := fun _ o w => Except.ok (o + w)
  install_interrupt_handler := fun _ _ => Except.error Status.OutOfMemory

/-- Claim C3 witness: the success trampolines write the capability value
and the failure trampolines return the error with the output slot value 99
unchanged, on the concrete capability testApi. -/
theorem c3_trampolines_output_discipline_witness :
    uacpi_kernel_raw_memory_read (some testApi) 4 2 99 =
      Except.ok (Status.Ok, 6) ∧
    uacpi_kernel_raw_io_read (some testApi) 4 2 99 =
      Except.ok (Status.NotFound, 99) ∧
    uacpi_kernel_pci_read (some testApi) ⟨0, 0, 0, 0⟩ 8 4 99 =
      Except.ok (Status.Ok, 84) ∧
    uacpi_kernel_io_map (some testApi) 10 6 99 = Except.ok (Status.Ok, 16) ∧
    uacpi_kernel_io_read (some testApi) 1 8 2 99 = Except.ok (Status.Ok, 10) ∧
    uacpi_kernel_install_interrupt_handler (some testApi) 9 5 7 99 =
      Except.ok (Status.OutOfMemory, 99) := by
  refine ⟨?_, ?_, ?_, ?_, ?_, ?_⟩
  · exact (c3_trampolines_output_discipline testApi ⟨0, 0, 0, 0⟩ 4 2 0 99 6
      Status.Ok).1 rfl
  · exact (c3_trampolines_output_discipline testApi ⟨0, 0, 0, 0⟩ 4 2 0 99 0
      Status.NotFound).2.2.2.1 rfl
  · exact (c3_trampolines_output_discipline testApi ⟨0, 0, 0, 0⟩ 8 4 0 99 84
      Status.Ok).2.2.2.2.1 rfl
  · exact (c3_trampolines_output_discipline testApi ⟨0, 0, 0, 0⟩ 10 6 0 99 16
      Status.Ok).2.2.2.2.2.2.1 rfl
  · exact (c3_trampolines_output_discipline testApi ⟨0, 0, 0, 0⟩ 1 8 2 99 10
      Status.Ok).2.2.2.2.2.2.2.2.1 rfl
  · exact (c3_trampolines_output_discipline testApi ⟨0, 0, 0, 0⟩ 9 5 7 99 0
      Status.OutOfMemory).2.2.2.2.2.2.2.2.2.2.2 rfl

end Uacpi
